import Mathlib

/-!
Verification of the NodeInfra deployment-orchestration toolkit.

Shallow embedding of the Python sources under `src/tools/`:
`validation.py` (pod readiness and load-balancer/API health polling),
`eks.py` (EKS cluster status polling and existence check),
`terraform.py` (outputs parsing and variable-argument serialization),
`cluster.py` (deploy/destroy orchestration), and `utils.py` (`fail`).

External effects (subprocess results, Kubernetes API responses, HTTP
responses, wall-clock polling) are modelled as explicit inputs: each
polling loop consumes a list of per-iteration observations (the list
length playing the role of the time/retry budget), and each orchestration
flow consumes an environment record of the outcomes its external calls
would produce, returning the trace of calls it performs.
-/

/-- Python exception classes relevant to the control flow: `SystemExit`
(raised by `sys.exit(1)` inside `utils.fail`) is NOT a subclass of
`Exception`, while ordinary exceptions (`RuntimeError`, `OSError`,
`json.JSONDecodeError`, ...) are. -/
inductive PyErr
  | systemExit (code : Nat)
  | exc (msg : String)
  deriving Repr, DecidableEq

/-- `except Exception` catches ordinary exceptions but not `SystemExit`. -/
def catchesExc : PyErr → Bool
  | .exc _ => true
  | .systemExit _ => false

/-! ## Pod readiness (`validation.wait_for_pod_ready`) -/

/-- One entry of a pod's `status.conditions` list. -/
structure PodCond where
  type : String
  status : String
  deriving Repr, DecidableEq

/-- The fields of a Kubernetes pod read by `wait_for_pod_ready`:
`pod.metadata.name`, `pod.status.phase`, and `pod.status.conditions`
(`none` models a Python `None` condition list, mapped to `[]` by
`pod.status.conditions or []`). -/
structure Pod where
  name : String
  phase : String
  conditions : Option (List PodCond)
  deriving Repr, DecidableEq

/-- `pod.status.conditions or []`. -/
def Pod.condList (p : Pod) : List PodCond :=
  p.conditions.getD []

/-- The per-pod readiness test of `wait_for_pod_ready`: some condition has
`type == "Ready"` and `status == "True"`. -/
def Pod.hasReadyTrue (p : Pod) : Bool :=
  p.condList.any fun c => c.type == "Ready" && c.status == "True"

/-- Exit states of the pod-readiness loop: success on a ready pod,
`fail(...)` (a `SystemExit`) on a pod in `Failed` phase, or `fail(...)`
on timeout. -/
inductive PodWaitResult
  | ready (podName : String)
  | failedPod (podName : String)
  | timeout
  deriving Repr, DecidableEq

/-- The inner `for pod in pods` loop of one poll iteration: for each pod in
list order, first check the condition list for `Ready=True` (immediate
success), then check `phase == "Failed"` (immediate fatal failure);
`none` means the iteration decided nothing and the loop sleeps and
retries. -/
def scanPods : List Pod → Option PodWaitResult
  | [] => none
  | p :: rest =>
    if p.hasReadyTrue then some (.ready p.name)
    else if p.phase == "Failed" then some (.failedPod p.name)
    else scanPods rest

/-- `wait_for_pod_ready`, driven by the list of pod lists the successive
`list_namespaced_pod` calls return; the list length is the number of poll
iterations the `timeout` allows. An empty pod list logs a warning and
retries (also covered by `scanPods [] = none`). -/
def wait_for_pod_ready : List (List Pod) → PodWaitResult
  | [] => .timeout
  | pods :: rest =>
    match scanPods pods with
    | some r => r
    | none => wait_for_pod_ready rest

/-! ## LoadBalancer + API health (`validation.wait_for_loadbalancer_and_api`) -/

/-- Python `x or y` for string-or-None operands: `None` and `""` are falsy. -/
def pyOr (o : Option String) (d : String) : String :=
  match o with
  | none => d
  | some s => if s == "" then d else s

/-- Python `str.isdigit()` restricted to ASCII decimal digits: true iff the
string is nonempty and every character is a digit. -/
def pyIsdigit (s : String) : Bool :=
  !s.isEmpty && s.toList.all Char.isDigit

/-- Python `str.strip()`: drop leading and trailing whitespace. -/
def pyStrip (s : String) : String :=
  ⟨((s.toList.dropWhile Char.isWhitespace).reverse.dropWhile Char.isWhitespace).reverse⟩

/-- One entry of a service's `status.load_balancer.ingress` list. -/
structure IngressEntry where
  hostname : Option String
  ip : Option String
  deriving Repr, DecidableEq

/-- `(ingress[0].hostname or ingress[0].ip or "").strip()` when the ingress
list is nonempty, `""` otherwise (the code leaves `host = ""`). -/
def hostOf : List IngressEntry → String
  | [] => ""
  | e :: _ => pyStrip (pyOr e.hostname (pyOr e.ip ""))

/-- The JSON body of an HTTP response: either `json.loads` raises, or it
yields a payload whose `ledger_version` field (if present) is recorded by
its `str(...)` rendering. -/
inductive HttpBody
  | badJson
  | payload (ledger_version : Option String)
  deriving Repr, DecidableEq

/-- Outcome of the `urllib.request.urlopen` GET: an `HTTPError`, some other
exception (connection error, timeout), or a response with a status code
and a body. -/
inductive HttpOutcome
  | httpError (code : Nat)
  | connError (msg : String)
  | response (status : Nat) (body : HttpBody)
  deriving Repr, DecidableEq

/-- The external observations of one loop attempt: the
`read_namespaced_service` outcome (`.error` models a raised exception;
`.ok` carries the ingress list, with the `svc.status`/`load_balancer`
`None` guards and `or []` collapsed into the list), and the outcome the
HTTP GET would have were one issued. -/
structure LbAttempt where
  svc : Except String (List IngressEntry)
  http : HttpOutcome
  deriving Repr

/-- One iteration of the `for attempt in range(...)` loop body:
`some host` iff the iteration `return host`s. A service-read exception,
empty host, non-200 status, request exception, unparsable JSON body, or a
missing/non-digit `ledger_version` all fall through to the next attempt. -/
def attemptResult (a : LbAttempt) : Option String :=
  match a.svc with
  | .error _ => none
  | .ok ingress =>
    let host := hostOf ingress
    if host == "" then none
    else
      match a.http with
      | .response status body =>
        if status == 200 then
          match body with
          | .badJson => none
          | .payload lv => if pyIsdigit (lv.getD "") then some host else none
        else none
      | _ => none

/-- `wait_for_loadbalancer_and_api`, driven by the list of per-attempt
observations; the list length is the `retries` budget (a fixed attempt
count, not wall-clock). Exhausting it reaches `fail(...)`, a
`SystemExit`. -/
def wait_for_loadbalancer_and_api : List LbAttempt → Except PyErr String
  | [] => .error (.systemExit 1)
  | a :: rest =>
    match attemptResult a with
    | some host => .ok host
    | none => wait_for_loadbalancer_and_api rest

/-! ## EKS cluster management (`eks.EKSManager`) -/

/-- Python substring test `pat in s` on character lists. -/
def containsSeq (pat : List Char) : List Char → Bool
  | [] => pat.isEmpty
  | c :: rest => pat.isPrefixOf (c :: rest) || containsSeq pat rest

/-- Python `pat in s` on strings. -/
def pyInStr (pat s : String) : Bool :=
  containsSeq pat.toList s.toList

/-- Captured result of the `aws eks describe-cluster` subprocess run with
`check=False`: exit code and stderr (`none` models Python `None`,
collapsed by `proc.stderr or ""`). -/
structure DescribeResult where
  returncode : Int
  stderr : Option String
  deriving Repr

/-- `EKSManager.cluster_exists`: exit 0 means the cluster exists; a
non-zero exit whose stderr contains `ResourceNotFoundException` means it
does not; any other non-zero exit reaches `fail(...)`, a `SystemExit`. -/
def cluster_exists (proc : DescribeResult) : Except PyErr Bool :=
  if proc.returncode == 0 then .ok true
  else
    let err := pyStrip (proc.stderr.getD "")
    if pyInStr "ResourceNotFoundException" err then .ok false
    else .error (.systemExit 1)

/-- Exit states of `EKSManager.wait_until_active`: `success(...)`-and-return
on `ACTIVE`, `fail(...)` on a terminal status, `fail(...)` on timeout. -/
inductive ActiveWaitResult
  | active
  | terminal (status : String)
  | timedOut
  deriving Repr, DecidableEq

/-- The `status in {"FAILED", "DELETING"}` test (`status` may be `None`
when `get_cluster_status` returns `None`). -/
def isTerminalStatus (s : Option String) : Bool :=
  s == some "FAILED" || s == some "DELETING"

/-- `EKSManager.wait_until_active`, driven by the list of statuses the
successive `get_cluster_status` calls return (`none` = unreachable); the
list length is the number of poll iterations the `timeout` allows. -/
def wait_until_active : List (Option String) → ActiveWaitResult
  | [] => .timedOut
  | s :: rest =>
    if s == some "ACTIVE" then .active
    else if isTerminalStatus s then .terminal (s.getD "")
    else wait_until_active rest

/-! ## Terraform outputs and variables (`terraform.TerraformManager`) -/

/-- A parsed JSON value (the result of `json.loads` / input to
`json.dumps`). -/
inductive PyJson
  | null
  | bool (b : Bool)
  | num (n : Int)
  | str (s : String)
  | arr (xs : List PyJson)
  | obj (kvs : List (String × PyJson))
  deriving Repr

/-- JSON string quoting as `json.dumps` performs it for the common escapes
(quote, backslash, and named control characters). -/
def jsonQuoteChar (c : Char) : String :=
  if c == '"' then "\\\""
  else if c == '\\' then "\\\\"
  else if c == '\n' then "\\n"
  else if c == '\t' then "\\t"
  else if c == '\r' then "\\r"
  else String.singleton c

/-- `json.dumps` rendering of a string literal. -/
def jsonQuote (s : String) : String :=
  "\"" ++ String.join (s.toList.map jsonQuoteChar) ++ "\""

mutual

/-- `json.dumps` with default separators (`", "` between items, `": "`
between a key and its value). -/
def dumps : PyJson → String
  | .null => "null"
  | .bool b => if b then "true" else "false"
  | .num n => toString n
  | .str s => jsonQuote s
  | .arr xs => "[" ++ dumpsElems xs ++ "]"
  | .obj kvs => "\x7b" ++ dumpsMembers kvs ++ "\x7d"

/-- Comma-separated array elements of `json.dumps`. -/
def dumpsElems : List PyJson → String
  | [] => ""
  | [x] => dumps x
  | x :: y :: rest => dumps x ++ ", " ++ dumpsElems (y :: rest)

/-- Comma-separated object members of `json.dumps`. -/
def dumpsMembers : List (String × PyJson) → String
  | [] => ""
  | [(k, v)] => jsonQuote k ++ ": " ++ dumps v
  | (k, v) :: m :: rest => jsonQuote k ++ ": " ++ dumps v ++ ", " ++ dumpsMembers (m :: rest)

end

/-- Captured result of `terraform output -json` run with `check=False`:
exit code, stdout (`none` models Python `None`, collapsed by
`proc.stdout or ""`), and the `json.loads` outcome on the stripped stdout
(`none` models a `JSONDecodeError`). -/
structure TfOutputCmd where
  returncode : Int
  stdout : Option String
  parsed : Option PyJson
  deriving Repr

/-- The `value` extraction of `get_outputs`:
`isinstance(value, dict) and "value" in value` selects the entry, and
`value["value"]` is taken. -/
def extractValue (v : PyJson) : Option PyJson :=
  match v with
  | .obj inner => (inner.find? fun p => p.1 == "value").map (fun p => p.2)
  | _ => none

/-- `TerraformManager.get_outputs`: an empty mapping on non-zero exit, empty
stripped stdout, or a `JSONDecodeError`; otherwise the per-key `value`
extraction. A parse result that is valid JSON but not an object would
make `raw.items()` raise an uncaught `AttributeError`. -/
def get_outputs (proc : TfOutputCmd) : Except PyErr (List (String × PyJson)) :=
  if proc.returncode != 0 then .ok []
  else
    let text := pyStrip (proc.stdout.getD "")
    if text == "" then .ok []
    else
      match proc.parsed with
      | none => .ok []
      | some (.obj kvs) =>
        .ok (kvs.filterMap fun kv => (extractValue kv.2).map fun w => (kv.1, w))
      | some _ => .error (.exc "AttributeError")

/-- A Python value appearing in the Terraform variable mapping: `None`, a
`bool` (checked before other types, since `bool` is an `int` subclass in
Python), a number, a string, or a list/dict (serialized via
`json.dumps`). -/
inductive TfVal
  | pynone
  | pybool (b : Bool)
  | pyint (n : Int)
  | pystr (s : String)
  | pylist (xs : List PyJson)
  | pydict (kvs : List (String × PyJson))
  deriving Repr

/-- `TerraformManager.build_var_args`: skip `None` entries, lowercase
booleans, `json.dumps` for lists/dicts, `str(...)` otherwise, emitting
`-var key=value` pairs in mapping (insertion) order. -/
def build_var_args : List (String × TfVal) → List String
  | [] => []
  | (key, v) :: rest =>
    match v with
    | .pynone => build_var_args rest
    | .pybool b =>
      "-var" :: (key ++ "=" ++ (if b then "true" else "false")) :: build_var_args rest
    | .pyint n => "-var" :: (key ++ "=" ++ toString n) :: build_var_args rest
    | .pystr s => "-var" :: (key ++ "=" ++ s) :: build_var_args rest
    | .pylist xs => "-var" :: (key ++ "=" ++ dumps (.arr xs)) :: build_var_args rest
    | .pydict kvs => "-var" :: (key ++ "=" ++ dumps (.obj kvs)) :: build_var_args rest

/-! ## Orchestration (`cluster.ClusterManager.deploy` / `.destroy`)

The orchestrator's external calls are abstracted by an environment record
giving the outcome each call would produce; `deploy`/`destroy` return the
ordered trace of external calls actually performed together with the
overall result. Terraform outputs are modelled as string-valued mappings
(only `cluster_name`/`region`/namespace/release keys are consulted). -/

/-- The external calls the orchestrator can perform, in trace order. -/
inductive OrchEvent
  | getOutputs
  | clusterExistsCheck
  | tfInit
  | tfValidate
  | tfApply
  | waitActive
  | updateKubeconfig
  | helmUpgrade
  | printInfo
  | validateDeploy
  | helmUninstall
  | tfDestroy
  deriving Repr, DecidableEq

/-- `dict.get(key)` on a string-valued mapping. -/
def lookupStr (kvs : List (String × String)) (k : String) : Option String :=
  (kvs.find? fun p => p.1 == k).map fun p => p.2

/-- `dict.get(key, default)` on a string-valued mapping. -/
def lookupD (kvs : List (String × String)) (k d : String) : String :=
  (lookupStr kvs k).getD d

/-- Python truthiness of a string-or-None value. -/
def pyTruthy (o : Option String) : Bool :=
  match o with
  | none => false
  | some s => s != ""

/-- Outcomes of the external calls a `deploy` run can make. `outputs0` is
the first `get_outputs` result, `outputs1` the one after `apply`, and
`outputs2` the refresh taken when `outputs` is still empty after the
provisioning stage. -/
structure DeployEnv where
  outputs0 : List (String × String)
  clusterExistsResult : Except PyErr Bool
  initOk : Bool
  validateOk : Bool
  applyOk : Bool
  outputs1 : List (String × String)
  outputs2 : List (String × String)
  waitOk : Bool
  kubeconfigOk : Bool
  helmOk : Bool
  validationOk : Bool

/-- The result payload `deploy` returns on success. -/
structure DeployInfo where
  cluster_name : String
  region : String
  nspace : String
  release_name : String
  service_name : String
  outputs : List (String × String)
  deriving Repr, DecidableEq

/-- Stage 2 of `deploy` (workload deployment): recompute names from the
outputs with `.get(key, default)`, then `wait_until_active`,
`update_kubeconfig`, `helm.upgrade_install`, `_print_deployment_info`,
`validate_deployment`; each fallible step exits fatally (`SystemExit`)
on failure. -/
def deployStage2 (env : DeployEnv) (outputs : List (String × String))
    (cluster_name region : String) (helm_config : List (String × String)) :
    List OrchEvent × Except PyErr DeployInfo :=
  let cluster_name := lookupD outputs "cluster_name" cluster_name
  let region := lookupD outputs "region" region
  let nspace := lookupD helm_config "namespace" "movement-l1"
  let release_name := lookupD helm_config "release_name" "public-fullnode"
  let service_name := lookupD helm_config "service_name" "public-fullnode"
  if !env.waitOk then ([.waitActive], .error (.systemExit 1))
  else if !env.kubeconfigOk then
    ([.waitActive, .updateKubeconfig], .error (.systemExit 1))
  else if !env.helmOk then
    ([.waitActive, .updateKubeconfig, .helmUpgrade], .error (.systemExit 1))
  else if !env.validationOk then
    ([.waitActive, .updateKubeconfig, .helmUpgrade, .printInfo, .validateDeploy],
      .error (.systemExit 1))
  else
    ([.waitActive, .updateKubeconfig, .helmUpgrade, .printInfo, .validateDeploy],
      .ok ⟨cluster_name, region, nspace, release_name, service_name, outputs⟩)

/-- The provisioning branch of `deploy`: `init(upgrade=True)`, `validate()`,
`apply(...)` (each fatal on failure), then `get_outputs()`; an empty
outputs mapping after a successful apply raises
`RuntimeError("Terraform apply completed but no outputs found")`. -/
def provisionInfra (env : DeployEnv) :
    List OrchEvent × Except PyErr (List (String × String)) :=
  if !env.initOk then ([.tfInit], .error (.systemExit 1))
  else if !env.validateOk then ([.tfInit, .tfValidate], .error (.systemExit 1))
  else if !env.applyOk then
    ([.tfInit, .tfValidate, .tfApply], .error (.systemExit 1))
  else
    let evs := [OrchEvent.tfInit, .tfValidate, .tfApply, .getOutputs]
    if env.outputs1.isEmpty then
      (evs, .error (.exc "Terraform apply completed but no outputs found"))
    else (evs, .ok env.outputs1)

/-- `ClusterManager.deploy`: query outputs, derive (cluster name, region)
with `outputs.get(...) or terraform_vars.get(...)` fallbacks, then either
skip provisioning (when `skip_if_exists` and `cluster_exists()` — the
existence check is short-circuited away when `skip_if_exists` is false)
or provision; refresh outputs if still empty (after a successful
provision they are provably nonempty, so the refresh only fires on the
skip path); then run stage 2. -/
def deploy (env : DeployEnv) (terraform_vars helm_config : List (String × String))
    (skip_if_exists : Bool) : List OrchEvent × Except PyErr DeployInfo :=
  let outputs := env.outputs0
  let cluster_name :=
    pyOr (lookupStr outputs "cluster_name")
      (lookupD terraform_vars "validator_name" "demo" ++ "-cluster")
  let region :=
    pyOr (lookupStr outputs "region") (lookupD terraform_vars "region" "us-east-1")
  if skip_if_exists then
    match env.clusterExistsResult with
    | .error e => ([.getOutputs, .clusterExistsCheck], .error e)
    | .ok true =>
      let (evs2, outputs) :=
        if outputs.isEmpty then ([OrchEvent.getOutputs], env.outputs2) else ([], outputs)
      let (evs3, res) := deployStage2 env outputs cluster_name region helm_config
      ([OrchEvent.getOutputs, .clusterExistsCheck] ++ evs2 ++ evs3, res)
    | .ok false =>
      match provisionInfra env with
      | (evs2, .error e) => ([OrchEvent.getOutputs, .clusterExistsCheck] ++ evs2, .error e)
      | (evs2, .ok outs) =>
        let (evs3, res) := deployStage2 env outs cluster_name region helm_config
        ([OrchEvent.getOutputs, .clusterExistsCheck] ++ evs2 ++ evs3, res)
  else
    match provisionInfra env with
    | (evs2, .error e) => (OrchEvent.getOutputs :: evs2, .error e)
    | (evs2, .ok outs) =>
      let (evs3, res) := deployStage2 env outs cluster_name region helm_config
      (OrchEvent.getOutputs :: evs2 ++ evs3, res)

/-- Outcomes of the external calls a `destroy` run can make.
`kubeconfigResult`'s failure mode in the code is `fail(...)` inside
`run_command(check=True)`, i.e. a `SystemExit`; `helmUninstallResult` has
`check=False` (non-zero exit swallowed), so its only failures are raised
exceptions. -/
structure DestroyEnv where
  initOk : Bool
  outputs : List (String × String)
  kubeconfigResult : Except PyErr Unit
  helmUninstallResult : Except PyErr Unit
  destroyOk : Bool

/-- `ClusterManager.destroy`: `init(upgrade=False)` (fatal on failure),
`get_outputs()`, then — when outputs are nonempty and both
`cluster_name` and `region` are truthy — a `try` block running
`update_kubeconfig()` and `helm.uninstall(...)` whose
`except Exception` catches ordinary exceptions (logged as a warning) but
not `SystemExit`; finally `terraform destroy` (fatal on failure). The
second component is the uncaught exception, if any. -/
def destroy (env : DestroyEnv) : List OrchEvent × Option PyErr :=
  if !env.initOk then ([.tfInit], some (.systemExit 1))
  else
    let pre := [OrchEvent.tfInit, OrchEvent.getOutputs]
    let outputs := env.outputs
    let tryStep : List OrchEvent × Option PyErr :=
      if !outputs.isEmpty &&
          pyTruthy (lookupStr outputs "cluster_name") &&
          pyTruthy (lookupStr outputs "region") then
        match env.kubeconfigResult with
        | .error e =>
          if catchesExc e then ([.updateKubeconfig], none)
          else ([.updateKubeconfig], some e)
        | .ok _ =>
          match env.helmUninstallResult with
          | .error e =>
            if catchesExc e then ([.updateKubeconfig, .helmUninstall], none)
            else ([.updateKubeconfig, .helmUninstall], some e)
          | .ok _ => ([.updateKubeconfig, .helmUninstall], none)
      else ([], none)
    match tryStep with
    | (evsTry, some e) => (pre ++ evsTry, some e)
    | (evsTry, none) =>
      if !env.destroyOk then (pre ++ evsTry ++ [.tfDestroy], some (.systemExit 1))
      else (pre ++ evsTry ++ [.tfDestroy], none)

/-! ## Helper characterizations used by the theorems -/

/-- Per-entry rendering of `build_var_args`: `none` for a skipped `None`
entry, otherwise the serialized value text. -/
def renderVarValue : TfVal → Option String
  | .pynone => none
  | .pybool b => some (if b then "true" else "false")
  | .pyint n => some (toString n)
  | .pystr s => some s
  | .pylist xs => some (dumps (.arr xs))
  | .pydict kvs => some (dumps (.obj kvs))

/-- A status on which `wait_until_active` stops polling: `ACTIVE` or one of
the terminal statuses. -/
def isDecisiveStatus (s : Option String) : Bool :=
  s == some "ACTIVE" || isTerminalStatus s

/-! ## Theorems -/

/-- Claim C9: `build_var_args` skips every null-valued entry entirely,
renders every boolean value as exactly the lowercase literal `true` or
`false`, serializes list and mapping values as `json.dumps` JSON text,
and emits every remaining entry as the argument pair `-var key=value` in
the mapping's order. -/
theorem build_var_args_serialization :
    (∀ vars : List (String × TfVal),
      build_var_args vars =
        (vars.filterMap fun kv =>
          (renderVarValue kv.2).map fun s => ["-var", kv.1 ++ "=" ++ s]).flatten) ∧
    renderVarValue .pynone = none ∧
    (∀ b : Bool, renderVarValue (.pybool b) = some (if b then "true" else "false")) ∧
    (∀ xs : List PyJson, renderVarValue (.pylist xs) = some (dumps (.arr xs))) ∧
    (∀ kvs : List (String × PyJson), renderVarValue (.pydict kvs) = some (dumps (.obj kvs))) := by
  refine ⟨?_, rfl, fun b => rfl, fun xs => rfl, fun kvs => rfl⟩
  intro vars
  induction vars with
  | nil => rfl
  | cons kv rest ih =>
    obtain ⟨k, v⟩ := kv
    cases v <;> simp [build_var_args, renderVarValue, ih]

/-- Claim C8: `cluster_exists` returns `true` when the describe call exits
zero, returns `false` (not a fatal error) when it exits non-zero with
`ResourceNotFoundException` in its stderr, and fails fatally
(`SystemExit` via `fail`) on any other non-zero exit. -/
theorem cluster_exists_error_classes (proc : DescribeResult) :
    (proc.returncode = 0 → cluster_exists proc = .ok true) ∧
    (proc.returncode ≠ 0 →
      pyInStr "ResourceNotFoundException" (pyStrip (proc.stderr.getD "")) = true →
      cluster_exists proc = .ok false) ∧
    (proc.returncode ≠ 0 →
      pyInStr "ResourceNotFoundException" (pyStrip (proc.stderr.getD "")) = false →
      cluster_exists proc = .error (.systemExit 1)) := by
  refine ⟨fun h0 => ?_, fun hne hin => ?_, fun hne hnotin => ?_⟩
  · simp [cluster_exists, h0]
  · simp [cluster_exists, hne, hin]
  · simp [cluster_exists, hne, hnotin]

theorem cluster_exists_error_classes_witness :
    cluster_exists ⟨0, none⟩ = .ok true ∧
    cluster_exists ⟨254, some "An error occurred (ResourceNotFoundException)"⟩ = .ok false ∧
    cluster_exists ⟨253, some "AccessDeniedException: nope"⟩ = .error (.systemExit 1) :=
  ⟨(cluster_exists_error_classes ⟨0, none⟩).1 rfl,
   (cluster_exists_error_classes
      ⟨254, some "An error occurred (ResourceNotFoundException)"⟩).2.1
      (by decide) (by decide),
   (cluster_exists_error_classes ⟨253, some "AccessDeniedException: nope"⟩).2.2
      (by decide) (by decide)⟩

/-- Claim C7: `get_outputs` returns an empty mapping — never raising or
exiting — whenever the `terraform output -json` command exits non-zero,
produces empty (stripped) output, or produces unparsable JSON; in
particular it does so before the backend has ever been applied. -/
theorem get_outputs_empty_on_failure (proc : TfOutputCmd)
    (h : proc.returncode ≠ 0 ∨ pyStrip (proc.stdout.getD "") = "" ∨ proc.parsed = none) :
    get_outputs proc = .ok [] := by
  rcases h with h | h | h
  · simp [get_outputs, h]
  · by_cases h0 : proc.returncode = 0
    · simp [get_outputs, h0, h]
    · simp [get_outputs, h0]
  · by_cases h0 : proc.returncode = 0
    · by_cases hs : pyStrip (proc.stdout.getD "") = ""
      · simp [get_outputs, h0, hs]
      · simp [get_outputs, h0, hs, h]
    · simp [get_outputs, h0]

theorem get_outputs_empty_on_failure_witness :
    get_outputs ⟨1, some "", none⟩ = .ok [] ∧
    get_outputs ⟨0, some "   ", none⟩ = .ok [] ∧
    get_outputs ⟨0, some "i am not json", none⟩ = .ok [] :=
  ⟨get_outputs_empty_on_failure ⟨1, some "", none⟩ (Or.inl (by decide)),
   get_outputs_empty_on_failure ⟨0, some "   ", none⟩ (Or.inr (Or.inl (by decide))),
   get_outputs_empty_on_failure ⟨0, some "i am not json", none⟩ (Or.inr (Or.inr rfl))⟩

/-- Claim C4: `wait_until_active` has exactly three exit states (the
`ActiveWaitResult` type): it succeeds the first time `ACTIVE` is
observed, regardless of any later polls; it fails fatally the first time
`FAILED` or `DELETING` is observed, regardless of any later polls and
without exhausting the timeout; and it times out fatally when the poll
budget elapses with no decisive status observed. -/
theorem wait_until_active_exit_states :
    (∀ (xs ys : List (Option String)), (∀ s ∈ xs, isDecisiveStatus s = false) →
      wait_until_active (xs ++ some "ACTIVE" :: ys) = .active) ∧
    (∀ (xs ys : List (Option String)) (t : String),
      (∀ s ∈ xs, isDecisiveStatus s = false) → (t = "FAILED" ∨ t = "DELETING") →
      wait_until_active (xs ++ some t :: ys) = .terminal t) ∧
    (∀ xs : List (Option String), (∀ s ∈ xs, isDecisiveStatus s = false) →
      wait_until_active xs = .timedOut) := by
  have hskip : ∀ (xs : List (Option String)) (tail : List (Option String)),
      (∀ s ∈ xs, isDecisiveStatus s = false) →
      wait_until_active (xs ++ tail) = wait_until_active tail := by
    intro xs tail hxs
    induction xs with
    | nil => rfl
    | cons s rest ih =>
      have hs := hxs s (List.mem_cons_self s rest)
      have hact : (s == some "ACTIVE") = false := by
        cases hb : s == some "ACTIVE" with
        | true => simp [isDecisiveStatus, hb] at hs
        | false => rfl
      have hterm : isTerminalStatus s = false := by
        cases hb : isTerminalStatus s with
        | true => simp [isDecisiveStatus, hb] at hs
        | false => rfl
      simp only [List.cons_append, wait_until_active, hact, hterm, Bool.false_eq_true,
        if_false]
      exact ih fun p hp => hxs p (List.mem_cons_of_mem s hp)
  refine ⟨fun xs ys hxs => ?_, fun xs ys t hxs ht => ?_, fun xs hxs => ?_⟩
  · rw [hskip xs _ hxs]
    simp [wait_until_active]
  · rw [hskip xs _ hxs]
    rcases ht with ht | ht <;> subst ht <;> simp [wait_until_active, isTerminalStatus]
  · have := hskip xs [] hxs
    simpa using this

theorem wait_until_active_exit_states_witness :
    wait_until_active [some "CREATING", none, some "ACTIVE", some "FAILED"] = .active ∧
    wait_until_active [some "CREATING", some "DELETING", some "ACTIVE"] =
      .terminal "DELETING" ∧
    wait_until_active [some "CREATING", none] = .timedOut :=
  ⟨wait_until_active_exit_states.1 [some "CREATING", none] [some "FAILED"] (by decide),
   wait_until_active_exit_states.2.1 [some "CREATING"] [some "ACTIVE"] "DELETING"
      (by decide) (Or.inr rfl),
   wait_until_active_exit_states.2.2 [some "CREATING", none] (by decide)⟩

/-- Claim C10: within a single pod's inspection, the Ready-condition check
precedes the Failed-phase check, so a pod with a `Ready=True` condition
causes immediate success even when that same pod's phase is `Failed`;
its Failed-phase check is never reached. -/
theorem ready_check_precedes_failed_check (p : Pod) (rest : List Pod)
    (polls : List (List Pod)) (hready : p.hasReadyTrue = true)
    (hphase : p.phase = "Failed") :
    wait_for_pod_ready ((p :: rest) :: polls) = .ready p.name := by
  simp [wait_for_pod_ready, scanPods, hready]

theorem ready_check_precedes_failed_check_witness :
    wait_for_pod_ready
        [[⟨"pod-x", "Failed", some [⟨"PodScheduled", "True"⟩, ⟨"Ready", "True"⟩]⟩]] =
      .ready "pod-x" :=
  ready_check_precedes_failed_check
    ⟨"pod-x", "Failed", some [⟨"PodScheduled", "True"⟩, ⟨"Ready", "True"⟩]⟩ [] []
    (by decide) rfl

/-- Claim C1 counterexample: a poll iteration listing pod 1 (no Ready
condition, phase `Failed`) before pod 2 (`Ready=True`) does not succeed
on pod 2 — it fails immediately on pod 1. -/
theorem pod1_failed_blocks_pod2_counterexample :
    wait_for_pod_ready
        [[⟨"pod-1", "Failed", some []⟩,
          ⟨"pod-2", "Running", some [⟨"Ready", "True"⟩]⟩]] ≠ .ready "pod-2" ∧
    wait_for_pod_ready
        [[⟨"pod-1", "Failed", some []⟩,
          ⟨"pod-2", "Running", some [⟨"Ready", "True"⟩]⟩]] = .failedPod "pod-1" := by
  constructor <;> decide

/-- Claim C1 as amended: with pod 1 having no Ready condition and pod 2 a
`Ready=True` condition in one poll response, the loop succeeds on pod 2
regardless of pod 1's state except that, when pod 1 is listed before
pod 2 and pod 1's phase is `Failed`, the loop instead fails immediately
on pod 1; when pod 2 is listed first the loop succeeds on pod 2
regardless of pod 1's state. -/
theorem at_least_one_ready_order_dependent (p1 p2 : Pod) (rest : List Pod)
    (polls : List (List Pod))
    (h1 : ∀ c ∈ p1.condList, c.type ≠ "Ready")
    (h2 : p2.hasReadyTrue = true) :
    (p1.phase ≠ "Failed" →
      wait_for_pod_ready ((p1 :: p2 :: rest) :: polls) = .ready p2.name) ∧
    (p1.phase = "Failed" →
      wait_for_pod_ready ((p1 :: p2 :: rest) :: polls) = .failedPod p1.name) ∧
    wait_for_pod_ready ((p2 :: p1 :: rest) :: polls) = .ready p2.name := by
  have h1ready : p1.hasReadyTrue = false := by
    rw [Pod.hasReadyTrue]
    rw [List.any_eq_false]
    intro c hc
    have := h1 c hc
    simp [this]
  refine ⟨fun hnf => ?_, fun hf => ?_, ?_⟩
  · simp [wait_for_pod_ready, scanPods, h1ready, h2, hnf]
  · simp [wait_for_pod_ready, scanPods, h1ready, hf]
  · simp [wait_for_pod_ready, scanPods, h2]

theorem at_least_one_ready_order_dependent_witness :
    wait_for_pod_ready
        [[⟨"pod-1", "Pending", some [⟨"PodScheduled", "False"⟩]⟩,
          ⟨"pod-2", "Running", some [⟨"Ready", "True"⟩]⟩]] = .ready "pod-2" ∧
    wait_for_pod_ready
        [[⟨"pod-1", "Failed", some [⟨"PodScheduled", "False"⟩]⟩,
          ⟨"pod-2", "Running", some [⟨"Ready", "True"⟩]⟩]] = .failedPod "pod-1" ∧
    wait_for_pod_ready
        [[⟨"pod-2", "Running", some [⟨"Ready", "True"⟩]⟩,
          ⟨"pod-1", "Failed", some [⟨"PodScheduled", "False"⟩]⟩]] = .ready "pod-2" :=
  ⟨(at_least_one_ready_order_dependent
      ⟨"pod-1", "Pending", some [⟨"PodScheduled", "False"⟩]⟩
      ⟨"pod-2", "Running", some [⟨"Ready", "True"⟩]⟩ [] []
      (by decide) (by decide)).1 (by decide),
   (at_least_one_ready_order_dependent
      ⟨"pod-1", "Failed", some [⟨"PodScheduled", "False"⟩]⟩
      ⟨"pod-2", "Running", some [⟨"Ready", "True"⟩]⟩ [] []
      (by decide) (by decide)).2.1 rfl,
   (at_least_one_ready_order_dependent
      ⟨"pod-1", "Failed", some [⟨"PodScheduled", "False"⟩]⟩
      ⟨"pod-2", "Running", some [⟨"Ready", "True"⟩]⟩ [] []
      (by decide) (by decide)).2.2⟩

/-- Claim C2 counterexample: a poll iteration whose list contains a
`Failed`-phase pod does not necessarily fail — a pod with a `Ready=True`
condition listed before it makes the loop succeed instead. -/
theorem failed_pod_not_always_fatal_counterexample :
    wait_for_pod_ready
        [[⟨"pod-r", "Running", some [⟨"Ready", "True"⟩]⟩,
          ⟨"pod-f", "Failed", some []⟩]] ≠ .failedPod "pod-f" ∧
    wait_for_pod_ready
        [[⟨"pod-r", "Running", some [⟨"Ready", "True"⟩]⟩,
          ⟨"pod-f", "Failed", some []⟩]] = .ready "pod-r" := by
  constructor <;> decide

/-- Claim C2 as amended: the loop fails immediately (even with poll budget
remaining) on the first `Failed`-phase pod in the iteration's list,
provided no pod at or before it in the list has a `Ready=True`
condition. -/
theorem failed_pod_fatal_unless_ready_first (xs : List Pod) (pf : Pod)
    (ys : List Pod) (polls : List (List Pod))
    (hxs : ∀ p ∈ xs, p.hasReadyTrue = false ∧ p.phase ≠ "Failed")
    (hpfr : pf.hasReadyTrue = false) (hpf : pf.phase = "Failed") :
    wait_for_pod_ready ((xs ++ pf :: ys) :: polls) = .failedPod pf.name := by
  have hscan : scanPods (xs ++ pf :: ys) = some (.failedPod pf.name) := by
    induction xs with
    | nil => simp [scanPods, hpfr, hpf]
    | cons p rest ih =>
      have hp := hxs p (List.mem_cons_self p rest)
      simp only [List.cons_append, scanPods, hp.1, Bool.false_eq_true, if_false]
      rw [if_neg (by simpa using hp.2)]
      exact ih fun q hq => hxs q (List.mem_cons_of_mem p hq)
  simp [wait_for_pod_ready, hscan]

theorem failed_pod_fatal_unless_ready_first_witness :
    wait_for_pod_ready
        [[⟨"pod-a", "Pending", none⟩, ⟨"pod-f", "Failed", some []⟩,
          ⟨"pod-b", "Running", some [⟨"Ready", "True"⟩]⟩],
         [⟨"pod-b", "Running", some [⟨"Ready", "True"⟩]⟩]] = .failedPod "pod-f" :=
  failed_pod_fatal_unless_ready_first [⟨"pod-a", "Pending", none⟩]
    ⟨"pod-f", "Failed", some []⟩ [⟨"pod-b", "Running", some [⟨"Ready", "True"⟩]⟩]
    [[⟨"pod-b", "Running", some [⟨"Ready", "True"⟩]⟩]]
    (by decide) (by decide) rfl

/-- Claim C3: an attempt of the LB/API health loop reports success iff the
service read yielded a nonempty host AND the HTTP GET returned status 200
AND the parsed body's `ledger_version` field is a digit string; an HTTP
200 whose body lacks the marker or has a non-digit marker is not success
and the loop moves to the next attempt; exhausting the fixed attempt
budget with no successful attempt is fatal (`SystemExit`). -/
theorem lb_api_success_iff_validated_marker :
    (∀ a : LbAttempt, (attemptResult a).isSome = true ↔
      ∃ (ingress : List IngressEntry) (lv : String), a.svc = .ok ingress ∧
        hostOf ingress ≠ "" ∧ a.http = .response 200 (.payload (some lv)) ∧
        pyIsdigit lv = true) ∧
    (∀ (ingress : List IngressEntry) (lv : Option String),
      pyIsdigit (lv.getD "") = false →
      attemptResult ⟨.ok ingress, .response 200 (.payload lv)⟩ = none) ∧
    (∀ (a : LbAttempt) (rest : List LbAttempt), attemptResult a = none →
      wait_for_loadbalancer_and_api (a :: rest) = wait_for_loadbalancer_and_api rest) ∧
    (∀ attempts : List LbAttempt, (∀ a ∈ attempts, attemptResult a = none) →
      wait_for_loadbalancer_and_api attempts = .error (.systemExit 1)) := by
  refine ⟨?_, ?_, ?_, ?_⟩
  · intro a
    obtain ⟨svc, http⟩ := a
    constructor
    · intro h
      cases svc with
      | error m => simp [attemptResult] at h
      | ok ingress =>
        by_cases hhost : hostOf ingress = ""
        · simp [attemptResult, hhost] at h
        · cases http with
          | httpError c => simp [attemptResult, hhost] at h
          | connError m => simp [attemptResult, hhost] at h
          | response status body =>
            by_cases hst : status = 200
            · subst hst
              cases body with
              | badJson => simp [attemptResult, hhost] at h
              | payload lv =>
                by_cases hd : pyIsdigit (lv.getD "") = true
                · cases lv with
                  | none => exact absurd hd (by decide)
                  | some s => exact ⟨ingress, s, rfl, hhost, rfl, by simpa using hd⟩
                · simp [attemptResult, hhost, hd] at h
            · simp [attemptResult, hhost, hst] at h
    · rintro ⟨ingress, lv, hsvc, hhost, hhttp, hd⟩
      simp only at hsvc hhttp
      subst hsvc
      subst hhttp
      simp [attemptResult, hhost, hd]
  · intro ingress lv hd
    by_cases hhost : hostOf ingress = ""
    · simp [attemptResult, hhost]
    · simp [attemptResult, hhost, hd]
  · intro a rest h
    simp [wait_for_loadbalancer_and_api, h]
  · intro attempts hall
    induction attempts with
    | nil => rfl
    | cons a rest ih =>
      have ha := hall a (List.mem_cons_self a rest)
      simp only [wait_for_loadbalancer_and_api, ha]
      exact ih fun b hb => hall b (List.mem_cons_of_mem a hb)

theorem lb_api_success_iff_validated_marker_witness :
    (attemptResult ⟨.ok [⟨some "lb.host", none⟩],
        .response 200 (.payload (some "12"))⟩).isSome = true ∧
    attemptResult ⟨.ok [⟨some "lb.host", none⟩], .response 200 (.payload none)⟩ = none ∧
    wait_for_loadbalancer_and_api
        [⟨.ok [⟨some "lb.host", none⟩], .response 200 (.payload none)⟩,
         ⟨.ok [⟨some "lb.host", none⟩], .response 200 (.payload (some "12"))⟩] =
      wait_for_loadbalancer_and_api
        [⟨.ok [⟨some "lb.host", none⟩], .response 200 (.payload (some "12"))⟩] ∧
    wait_for_loadbalancer_and_api
        [⟨.ok [⟨some "lb.host", none⟩], .response 200 (.payload (some "-3"))⟩] =
      .error (.systemExit 1) := by
  have h := lb_api_success_iff_validated_marker
  refine ⟨(h.1 _).mpr ⟨[⟨some "lb.host", none⟩], "12", rfl, by decide, rfl, by decide⟩,
    h.2.1 [⟨some "lb.host", none⟩] none (by decide),
    h.2.2.1 _ _ (h.2.1 [⟨some "lb.host", none⟩] none (by decide)),
    h.2.2.2 _ ?_⟩
  intro a ha
  rw [List.mem_singleton] at ha
  subst ha
  exact h.2.1 [⟨some "lb.host", none⟩] (some "-3") (by decide)

/-- Claim C5 failing input: during `destroy` with cluster name and region
known from outputs, a failing `update_kubeconfig` reaches `fail(...)`
(`sys.exit(1)`), whose `SystemExit` is not an `Exception` and so escapes
the `except Exception` handler: the error propagates and `terraform
destroy` is never run. An ordinary exception in the same block (e.g.
from `helm.uninstall`) IS caught, and destruction proceeds. -/
theorem destroy_kubeconfig_systemexit_escapes :
    destroy ⟨true, [("cluster_name", "demo-cluster"), ("region", "us-east-1")],
        .error (.systemExit 1), .ok (), true⟩ =
      ([.tfInit, .getOutputs, .updateKubeconfig], some (.systemExit 1)) ∧
    OrchEvent.tfDestroy ∉
      (destroy ⟨true, [("cluster_name", "demo-cluster"), ("region", "us-east-1")],
          .error (.systemExit 1), .ok (), true⟩).1 ∧
    destroy ⟨true, [("cluster_name", "demo-cluster"), ("region", "us-east-1")],
        .ok (), .error (.exc "release not reachable"), true⟩ =
      ([.tfInit, .getOutputs, .updateKubeconfig, .helmUninstall, .tfDestroy], none) := by
  refine ⟨by decide, by decide, by decide⟩

/-- Claim C6: a `deploy` with `skip_if_exists = true` whose existence check
finds the cluster never invokes `terraform init`, `validate`, or `apply`,
while the workload deployment steps (wait-until-active, kubeconfig
refresh, Helm upgrade-install, validation) still proceed. -/
theorem deploy_skip_if_exists_skips_provisioning (env : DeployEnv)
    (terraform_vars helm_config : List (String × String))
    (hex : env.clusterExistsResult = .ok true)
    (hw : env.waitOk = true) (hk : env.kubeconfigOk = true) (hh : env.helmOk = true) :
    OrchEvent.tfInit ∉ (deploy env terraform_vars helm_config true).1 ∧
    OrchEvent.tfValidate ∉ (deploy env terraform_vars helm_config true).1 ∧
    OrchEvent.tfApply ∉ (deploy env terraform_vars helm_config true).1 ∧
    OrchEvent.waitActive ∈ (deploy env terraform_vars helm_config true).1 ∧
    OrchEvent.updateKubeconfig ∈ (deploy env terraform_vars helm_config true).1 ∧
    OrchEvent.helmUpgrade ∈ (deploy env terraform_vars helm_config true).1 ∧
    OrchEvent.validateDeploy ∈ (deploy env terraform_vars helm_config true).1 := by
  by_cases hvv : env.validationOk = true <;>
    by_cases ho : env.outputs0.isEmpty = true <;>
      simp [deploy, deployStage2, hex, hw, hk, hh, hvv, ho]

theorem deploy_skip_if_exists_skips_provisioning_witness :
    OrchEvent.tfApply ∉
      (deploy ⟨[("cluster_name", "c"), ("region", "r")], .ok true, true, true, true,
          [], [], true, true, true, true⟩ [] [] true).1 ∧
    OrchEvent.helmUpgrade ∈
      (deploy ⟨[("cluster_name", "c"), ("region", "r")], .ok true, true, true, true,
          [], [], true, true, true, true⟩ [] [] true).1 :=
  ⟨(deploy_skip_if_exists_skips_provisioning
      ⟨[("cluster_name", "c"), ("region", "r")], .ok true, true, true, true,
        [], [], true, true, true, true⟩ [] [] rfl rfl rfl rfl).2.2.1,
   (deploy_skip_if_exists_skips_provisioning
      ⟨[("cluster_name", "c"), ("region", "r")], .ok true, true, true, true,
        [], [], true, true, true, true⟩ [] [] rfl rfl rfl rfl).2.2.2.2.2.1⟩
